import Mathlib

/-!
Verification of the mqtt-bus event bridge (vehicle and bus-stop variants).

The Python sources are shallowly embedded:
* Python dicts keyed by strings become association lists (`dictGet`,
  `dictSet`, `dictMem`).
* The MQTT session (`MQTTClient` in `bus/mqtt_client.py` and
  `raspberry/mqtt_client.py`) becomes an explicit state machine `Session`
  with a `step` function returning the successor state and the list of
  transport publishes performed by the operation.
* Timed loops (heartbeat worker, blink workers) become fuel-indexed
  recursions over rational-valued simulated time.
-/

namespace MqttBus

/-! ### Association lists standing for Python dicts -/

/-- `d.get(k, default)` on a Python dict modelled as an association list. -/
def dictGet (l : List (String × α)) (k : String) (d : α) : α :=
  match l.find? (fun p => p.1 == k) with
  | some p => p.2
  | none => d

/-- `d[k] = v` on a Python dict modelled as an association list. -/
def dictSet : List (String × α) → String → α → List (String × α)
  | [], k, v => [(k, v)]
  | p :: ps, k, v => if p.1 == k then (k, v) :: ps else p :: dictSet ps k v

/-- `k in d` on a Python dict modelled as an association list. -/
def dictMem (l : List (String × α)) (k : String) : Bool :=
  (l.find? (fun p => p.1 == k)).isSome

/-! ### MQTT session state machine

Embeds the connection-lifecycle state of `MQTTClient` (both
`src/bus/mqtt_client.py` and `src/raspberry/mqtt_client.py`: the two
variants share the guard structure of every publish path; variant-specific
operations are tagged below).  A transport publish is recorded as a `Pub`
value; the last-will registration done by `will_set` in `initialize` is a
registration with the broker, not a transport publish, so it produces no
`Pub`. -/

/-- The kind of a transport publish made by the client. -/
inductive PubKind
  /-- Retained `"online"` status (`_publish_status("online")`). -/
  | statusOnline
  /-- Retained `"offline"` status (`_publish_status("offline")`). -/
  | statusOffline
  /-- Heartbeat message (`_publish_heartbeat`, raspberry variant; the bus
      variant's heartbeat republishes the retained online status). -/
  | heartbeat
  /-- Location message (`publish_location`, bus variant). -/
  | location
  /-- Button-press message (`publish_button_press`, raspberry variant). -/
  | buttonPress
deriving DecidableEq, Repr

/-- A transport publish: its kind and whether the retain flag was set. -/
structure Pub where
  kind : PubKind
  retain : Bool
deriving DecidableEq, Repr

/-- Session state of `MQTTClient`: `clientInit` is `self.client is not None`,
`isConnected` is `self.is_connected`, `running` is `self._running`. -/
structure Session where
  clientInit : Bool
  isConnected : Bool
  running : Bool
deriving DecidableEq, Repr

/-- The state built by `MQTTClient.__init__`. -/
def Session.start : Session :=
  { clientInit := false, isConnected := false, running := false }

/-- The atomic operations of the client, as they appear in the source.
`connect()` is split at its blocking wait into `clientSetup` (the
`client.connect`/`loop_start` prefix) and `connectFinish` (the
post-wait `_start_heartbeat`/`_publish_status("online")` tail); the
`on_connect` acknowledgment arrives in between on the network thread. -/
inductive Op
  /-- `MQTTClient.initialize`: create client, register the last-will. -/
  | clientCreate
  /-- Prefix of `connect()`: `client.connect`, `loop_start`, `_running = True`. -/
  | clientSetup
  /-- `_on_connect(rc)` callback from the transport. -/
  | onConnectAck (rc : Nat)
  /-- Tail of `connect()`: if connected, start heartbeat and publish online. -/
  | connectFinish
  /-- `_on_disconnect(rc)` callback from the transport. -/
  | onDisconnect (rc : Nat)
  /-- One iteration of the heartbeat worker loop. -/
  | heartbeatTick
  /-- `publish_location` (bus variant). -/
  | publishLocation
  /-- `publish_button_press`; `rcOk` is whether the transport returns
      `MQTT_ERR_SUCCESS` (raspberry variant). -/
  | publishButtonPress (rcOk : Bool)
  /-- `disconnect()`. -/
  | disconnectOp
deriving DecidableEq, Repr

/-- One operation of the client: successor state and the list of transport
publishes the operation performs, with the guards of the source:
* `_publish_status` itself only checks `self.client` (`if not self.client:
  return`); each of its call sites is guarded as in the source;
* the heartbeat worker runs `while self._running and self.is_connected`;
* `publish_location` checks `self.client and self.is_connected`;
* `publish_button_press` checks `self.is_connected`;
* `disconnect()` publishes offline only `if self.client and
  self.is_connected`. -/
def step (s : Session) : Op → Session × List Pub
  | .clientCreate => ({ s with clientInit := true }, [])
  | .clientSetup =>
      if s.clientInit then ({ s with running := true }, []) else (s, [])
  | .onConnectAck rc =>
      if s.clientInit then
        ({ s with isConnected := rc == 0 }, [])
      else (s, [])
  | .connectFinish =>
      if s.clientInit ∧ s.isConnected then
        (s, [⟨.statusOnline, true⟩])
      else (s, [])
  | .onDisconnect _ => ({ s with isConnected := false }, [])
  | .heartbeatTick =>
      if s.running ∧ s.isConnected then
        (s, [⟨.heartbeat, false⟩])
      else (s, [])
  | .publishLocation =>
      if s.clientInit ∧ s.isConnected then
        (s, [⟨.location, false⟩])
      else (s, [])
  | .publishButtonPress _ =>
      if s.isConnected then
        (s, [⟨.buttonPress, false⟩])
      else (s, [])
  | .disconnectOp =>
      if s.clientInit ∧ s.isConnected then
        ({ s with running := false, isConnected := false },
          [⟨.statusOffline, true⟩])
      else ({ s with running := false }, [])

/-- Run a sequence of operations, accumulating all transport publishes. -/
def run (s : Session) : List Op → Session × List Pub
  | [] => (s, [])
  | op :: ops =>
      let r := step s op
      let r' := run r.1 ops
      (r'.1, r.2 ++ r'.2)

/-- Whether the session is connected at some point strictly after the start
state while executing the operations. -/
def everConnected (s : Session) : List Op → Bool
  | [] => false
  | op :: ops =>
      let s' := (step s op).1
      s'.isConnected || everConnected s' ops

/-! ### Heartbeat worker timeline

`_start_heartbeat` spawns `while self._running and self.is_connected:
publish; time.sleep(HEARTBEAT_INTERVAL)`.  The worker publishes first and
sleeps afterwards.  `heartbeatTimes interval sessionEnd fuel t` lists the
publish instants of a worker that wakes at time `t` and finds the session
still open (running and connected) exactly at instants `< sessionEnd`. -/
def heartbeatTimes (interval sessionEnd : ℕ) : ℕ → ℕ → List ℕ
  | 0, _ => []
  | fuel + 1, t =>
      if t < sessionEnd then t :: heartbeatTimes interval sessionEnd fuel (t + interval)
      else []

/-! ### GPIO controller, bus-stop variant (`raspberry/gpio_controller.py`)

The Mock-GPIO path is the modelled behaviour: `GPIO.output` on the mock
never fails, so `set_led` on a configured route always updates the state
map and returns `True`.  Time is modelled as `ℚ` (seconds). -/

/-- One entry of `Config.get_routes_config()`. -/
structure RouteCfg where
  name : String
  color : String
  buttonPin : ℕ
  ledPin : ℕ
deriving DecidableEq, Repr

/-- The mutable state of `GPIOController` (bus-stop variant):
`routes_config`, `button_states`, `led_states`, `last_button_press`, and
the set of route ids with a registered button callback. -/
structure GpioState where
  routesConfig : List (String × RouteCfg)
  buttonStates : List (String × Bool)
  ledStates : List (String × Bool)
  lastButtonPress : List (String × ℚ)
  buttonCallbacks : List String
deriving DecidableEq, Repr

/-- State after `GPIOController.__init__` and the per-route setup loop of
its initialization: every configured route gets button state `False`, LED
state `False`, and last-press timestamp `0`. -/
def gpioSetup (routes : List (String × RouteCfg)) : GpioState :=
  { routesConfig := routes
    buttonStates := routes.map fun p => (p.1, false)
    ledStates := routes.map fun p => (p.1, false)
    lastButtonPress := routes.map fun p => (p.1, (0 : ℚ))
    buttonCallbacks := [] }

/-- `DEFAULT_ROUTES_CONFIG` from `raspberry/config.py`. -/
def defaultRoutesConfig : List (String × RouteCfg) :=
  [("1", ⟨"1번", "#FF0000", 18, 19⟩),
   ("2", ⟨"2번", "#00FF00", 20, 21⟩),
   ("3", ⟨"3번", "#0000FF", 22, 23⟩),
   ("4", ⟨"4번", "#FFFF00", 24, 25⟩)]

/-- `GPIOController.set_led`: returns `False` and changes nothing for a
route id not in `routes_config`; otherwise writes the pin, records the
state in `led_states` and returns `True`. -/
def set_led (g : GpioState) (route_id : String) (state : Bool) :
    Bool × GpioState :=
  if dictMem g.routesConfig route_id then
    (true, { g with ledStates := dictSet g.ledStates route_id state })
  else
    (false, g)

/-- `GPIOController.get_led_state`: `self.led_states.get(route_id, False)`. -/
def get_led_state (g : GpioState) (route_id : String) : Bool :=
  dictGet g.ledStates route_id false

/-- `GPIOController.register_button_callback`. -/
def register_button_callback (g : GpioState) (route_id : String) : GpioState :=
  { g with buttonCallbacks := route_id :: g.buttonCallbacks }

/-- `GPIOController._button_callback`: the software debounce guard followed
by the accept path.  Returns whether the edge was accepted, the new state,
and the `(route_id, route_config)` argument pair of the spawned callback
thread when one is registered.  An accepted edge for a route id missing
from `routes_config` raises `KeyError` at `self.routes_config[route_id]`,
which the surrounding `except` logs: the timestamp and button state are
already updated by then, but no LED write or callback happens. -/
def button_callback (debounceTime : ℚ) (g : GpioState) (route_id : String)
    (now : ℚ) : Bool × GpioState × Option (String × RouteCfg) :=
  if now - dictGet g.lastButtonPress route_id 0 < debounceTime then
    (false, g, none)
  else
    let g1 := { g with lastButtonPress := dictSet g.lastButtonPress route_id now }
    let g2 := { g1 with buttonStates := dictSet g1.buttonStates route_id true }
    match g2.routesConfig.find? (fun p => p.1 == route_id) with
    | none => (true, g2, none)
    | some p =>
        let g3 := (set_led g2 route_id true).2
        (true, g3,
          if g3.buttonCallbacks.contains route_id then some (route_id, p.2)
          else none)

/-- A pending blink request handed to `blink_led` (its thread's inputs). -/
structure BlinkReq where
  route_id : String
  duration : ℚ
  interval : ℚ
deriving DecidableEq, Repr

/-- `BusStopSystem._on_led_control` (`raspberry/main.py`): interprets the
command payload's `status` field (`message.get('status', 'OFF')`); `ON` and
`OFF` write the LED, `BLINK` spawns a blink with defaults `duration=2.0`,
`interval=0.5`, anything else is ignored. -/
def on_led_control (g : GpioState) (route_id : String) (status : Option String)
    (duration interval : Option ℚ) : GpioState × Option BlinkReq :=
  let st := status.getD "OFF"
  if st == "ON" then ((set_led g route_id true).2, none)
  else if st == "OFF" then ((set_led g route_id false).2, none)
  else if st == "BLINK" then
    (g, some ⟨route_id, duration.getD 2, interval.getD (1 / 2)⟩)
  else (g, none)

/-- The loop of `blink_led`'s worker (bus-stop variant): while the elapsed
time is below `duration`, switch the LED on, sleep `interval`, switch it
off, sleep `interval`.  Fuel-indexed; `t` is the elapsed time at the loop
test. -/
def blinkLoop (route_id : String) (duration interval : ℚ) :
    ℕ → ℚ → GpioState → GpioState
  | 0, _, g => g
  | fuel + 1, t, g =>
      if t < duration then
        blinkLoop route_id duration interval fuel (t + 2 * interval)
          ((set_led ((set_led g route_id true).2) route_id false).2)
      else g

/-- `GPIOController.blink_led` (bus-stop variant) run to completion: read
the original state from `led_states`, run the on/off loop, then restore the
original state with `set_led`. -/
def blink_led (g : GpioState) (route_id : String) (duration interval : ℚ)
    (fuel : ℕ) : GpioState :=
  let originalState := dictGet g.ledStates route_id false
  let g' := blinkLoop route_id duration interval fuel 0 g
  (set_led g' route_id originalState).2

/-- Well-formedness of the controller state: `led_states` only holds keys
of `routes_config`.  It holds after initialization and is preserved by
every operation, because `set_led` is the only writer of `led_states` and
it rejects unknown route ids. -/
def LedWf (g : GpioState) : Prop :=
  ∀ k, dictMem g.ledStates k = true → dictMem g.routesConfig k = true

/-! ### GPIO controller, vehicle variant (`bus/gpio_controller.py`) -/

/-- Output state of the vehicle controller: `led_red_state`,
`led_green_state`. -/
structure BusGpio where
  ledRedState : Bool
  ledGreenState : Bool
deriving DecidableEq, Repr

/-- Vehicle `GPIOController.set_led(red=False, green=False)`: assigns both
LED states (callers relying on the defaults reset the other colour). -/
def busSetLed (_g : BusGpio) (red green : Bool) : BusGpio :=
  { ledRedState := red, ledGreenState := green }

/-- The loop of the vehicle `blink_led` worker: while wall time is before
`end_time`, write the requested colour on (`set_led(red=True)` or
`set_led(green=True)`; any other colour writes nothing), sleep, write both
off, sleep.  The loop ends with both LEDs off and the worker terminates
without restoring the prior state. -/
def busBlinkLoop (color : String) (duration interval : ℚ) :
    ℕ → ℚ → BusGpio → BusGpio
  | 0, _, g => g
  | fuel + 1, t, g =>
      if t < duration then
        let g1 :=
          if color == "red" then busSetLed g true false
          else if color == "green" then busSetLed g false true
          else g
        busBlinkLoop color duration interval fuel (t + 2 * interval)
          (busSetLed g1 false false)
      else g

/-- Vehicle `GPIOController.blink_led` run to completion.  Unlike the
bus-stop variant there is no restore step after the loop. -/
def busBlinkLed (g : BusGpio) (duration interval : ℚ) (color : String)
    (fuel : ℕ) : BusGpio :=
  busBlinkLoop color duration interval fuel 0 g

/-! ### Topic routing and message dispatch -/

/-- `str.split(sep)` of Python for a single-character separator. -/
def splitCharAux (sep : Char) : List Char → List Char → List String
  | [], acc => [String.mk acc.reverse]
  | c :: cs, acc =>
      if c == sep then String.mk acc.reverse :: splitCharAux sep cs []
      else splitCharAux sep cs (c :: acc)

/-- Python `topic.split("/")`. -/
def pySplit (s : String) (sep : Char) : List String :=
  splitCharAux sep s.data []

/-- Auxiliary list-level test used by `pyStartsWith`. -/
def leadsList : List Char → List Char → Bool
  | [], _ => true
  | _ :: _, [] => false
  | a :: as, b :: bs => a == b && leadsList as bs

/-- Python `s.startswith(pre)`. -/
def pyStartsWith (s pre : String) : Bool :=
  leadsList pre.data s.data

/-- The routed-event outcome of the vehicle `_on_message` routing logic. -/
inductive RoutedEvent
  | buttonPress (stopId routeId : String)
  | healthCheck
  | unrecognized
deriving DecidableEq, Repr

/-- The routing portion of the vehicle `MQTTClient._on_message`
(`bus/mqtt_client.py`): a topic under `device/button/` with at least 4
segments and trailing segment equal to the configured `ROUTE_ID` is a
button-press event whose stop id and route id are the last two segments;
the exact topic `system/health` (`topics["system_health"]`) is a health
check; everything else is ignored. -/
def route (configRouteId : String) (topic : String) : RoutedEvent :=
  if pyStartsWith topic "device/button/" then
    let parts := pySplit topic '/'
    if 4 ≤ parts.length then
      let routeId := parts.getLastD ""
      let stopId := parts.dropLast.getLastD ""
      if routeId == configRouteId then .buttonPress stopId routeId
      else .unrecognized
    else .unrecognized
  else if topic == "system/health" then .healthCheck
  else .unrecognized

/-- A decoded payload: structured data when `json.loads` succeeds, the raw
string otherwise. -/
inductive Payload (α : Type)
  | json (value : α)
  | raw (text : String)
deriving DecidableEq, Repr

/-- The payload carried by a `Payload`. -/
def Payload.rawText : Payload α → Option String
  | .json _ => none
  | .raw t => some t

/-- A callback invocation performed by the vehicle `_on_message`. -/
inductive BusDispatch (α : Type)
  | routeCall (stopId : String) (payload : Payload α)
  | systemHealth (payload : Payload α)
deriving DecidableEq, Repr

/-- The decoded payload an invocation passes to its callback. -/
def BusDispatch.payload : BusDispatch α → Payload α
  | .routeCall _ p => p
  | .systemHealth p => p

/-- The vehicle `MQTTClient._on_message` (`bus/mqtt_client.py`): decode the
payload with a raw-string fallback on parse failure (`parsed` is the
outcome of `json.loads`), route the topic, and invoke the registered
callback if any.  Returns the invocation performed, if one happens. -/
def busOnMessage (configRouteId : String)
    (routeCallRegistered systemHealthRegistered : Bool)
    (topic rawPayload : String) (parsed : Option α) : Option (BusDispatch α) :=
  let payload : Payload α :=
    match parsed with
    | some v => .json v
    | none => .raw rawPayload
  match route configRouteId topic with
  | .buttonPress stopId _ =>
      if routeCallRegistered then some (.routeCall stopId payload) else none
  | .healthCheck =>
      if systemHealthRegistered then some (.systemHealth payload) else none
  | .unrecognized => none

/-- A callback invocation performed by the bus-stop `_on_message`. -/
inductive StopDispatch (α : Type)
  | ledControl (routeId : String) (payload : α)
  | systemHealth (payload : α)
deriving DecidableEq, Repr

/-- The bus-stop `MQTTClient._on_message` (`raspberry/mqtt_client.py`): the
whole body runs inside `try/except Exception`, and `json.loads` is the
first statement, so a payload that fails to parse (`parsed = none`) aborts
handling with a logged error and no callback runs.  On success, a topic
under `device/led/{STOP_ID}/` dispatches to the `led_control` callback with
the trailing segment as route id, and `system/health` to the
`system_health` callback. -/
def stopOnMessage (stopId : String)
    (ledControlRegistered systemHealthRegistered : Bool)
    (topic _rawPayload : String) (parsed : Option α) : Option (StopDispatch α) :=
  match parsed with
  | none => none
  | some v =>
      if pyStartsWith topic ("device/led/" ++ stopId ++ "/") then
        if ledControlRegistered then
          some (.ledControl ((pySplit topic '/').getLastD "") v)
        else none
      else if topic == "system/health" then
        if systemHealthRegistered then some (.systemHealth v) else none
      else none

/-! ### Event bridge, button-press path (`raspberry/main.py`) -/

/-- An observable action of `BusStopSystem._on_button_pressed`. -/
inductive BridgeAction
  | publishAttempt
  | blinkReq (durationSeconds intervalSeconds : ℚ)
deriving DecidableEq, Repr

/-- Boolean result of `MQTTClient.publish_button_press`: `False` when not
connected (no transport call), otherwise whether the transport returned
`MQTT_ERR_SUCCESS`. -/
def publishButtonPressResult (connected rcOk : Bool) : Bool :=
  connected && rcOk

/-- The confirmation feedback of `_on_button_pressed`:
`blink_led(route_id, duration=1.0, interval=0.2)`. -/
def confirmFeedback : BridgeAction := .blinkReq 1 (1 / 5)

/-- The error feedback of `_on_button_pressed`:
`blink_led(route_id, duration=2.0, interval=0.1)`. -/
def errorFeedback : BridgeAction := .blinkReq 2 (1 / 10)

/-- `BusStopSystem._on_button_pressed` for an accepted edge: one call to
`publish_button_press`, then the feedback blink selected by its boolean
result. -/
def onButtonPressed (connected rcOk : Bool) : List BridgeAction :=
  let success := publishButtonPressResult connected rcOk
  [BridgeAction.publishAttempt,
    if success then confirmFeedback else errorFeedback]

theorem dictGet_dictSet_self (l : List (String × α)) (k : String) (v d : α) :
    dictGet (dictSet l k v) k d = v := by
  induction l with
  | nil => simp [dictGet, dictSet]
  | cons p ps ih =>
    by_cases h : p.1 == k
    · simp [dictGet, dictSet, h]
    · simp only [dictSet, h, if_false]
      simpa [dictGet, List.find?, h] using ih

theorem dictGet_of_not_mem (l : List (String × α)) (k : String) (d : α)
    (h : dictMem l k = false) : dictGet l k d = d := by
  unfold dictMem at h
  unfold dictGet
  cases hf : l.find? (fun p => p.1 == k) with
  | none => rfl
  | some p => rw [hf] at h; simp at h

theorem dictMem_dictSet (l : List (String × α)) (k k' : String) (v : α) :
    dictMem (dictSet l k v) k' = (k == k' || dictMem l k') := by
  induction l with
  | nil =>
    by_cases h : k == k' <;> simp [dictMem, dictSet, List.find?, h]
  | cons p ps ih =>
    by_cases h : p.1 == k
    · have hk : p.1 = k := by simpa using h
      by_cases h' : k == k'
      · simp [dictMem, dictSet, List.find?, h, h', hk]
      · simp [dictMem, dictSet, List.find?, h, h', hk]
    · by_cases h' : p.1 == k'
      · simp [dictMem, dictSet, List.find?, h, h']
      · simp only [dictSet, h, if_false]
        simp only [dictMem, List.find?, h'] at ih ⊢
        simpa [dictMem] using ih

/-! ### Session lemmas -/

/-- While the session is not connected, no operation performs any transport
publish: every publish call site is guarded (directly or at its caller) by
`is_connected`. -/
theorem step_pubs_nil_of_not_connected (s : Session) (op : Op)
    (h : s.isConnected = false) : (step s op).2 = [] := by
  cases op <;> simp only [step, h] <;>
    first
      | rfl
      | (split <;> rfl)
      | simp

/-- If a trace starting from a disconnected state never reaches a connected
state, it performs no retained offline status publish. -/
theorem no_offline_pub_of_never_connected (s : Session) (ops : List Op)
    (hconn : s.isConnected = false) (hever : everConnected s ops = false) :
    Pub.mk .statusOffline true ∉ (run s ops).2 := by
  induction ops generalizing s with
  | nil => simp [run]
  | cons op ops ih =>
    simp only [everConnected, Bool.or_eq_false_iff] at hever
    simp only [run, List.mem_append]
    rintro (hmem | hmem)
    · rw [step_pubs_nil_of_not_connected s op hconn] at hmem
      exact absurd hmem (List.not_mem_nil _)
    · exact ih _ hever.1 hever.2 hmem

/-- C1: in every session state, a non-will publish (status, heartbeat,
location, button-press) is attempted on the transport only while
`is_connected = true`: an operation invoked while not connected performs no
transport publish at all. -/
theorem session_nonwill_publish_only_when_connected (s : Session) (op : Op)
    (h : s.isConnected = false) : (step s op).2 = [] :=
  step_pubs_nil_of_not_connected s op h

theorem session_nonwill_publish_only_when_connected_witness :
    (Session.mk true false true).isConnected = false ∧
      (step (Session.mk true false true) Op.heartbeatTick).2 = [] :=
  ⟨rfl, session_nonwill_publish_only_when_connected (Session.mk true false true)
    Op.heartbeatTick rfl⟩

/-- C9 counterexample: a session that connects, then drops unexpectedly,
and is then shut down was connected during the execution, yet `disconnect()`
performs no retained offline status publish (it checks `is_connected`, not
"ever connected"). -/
theorem offline_on_shutdown_counterexample :
    everConnected Session.start
        [Op.clientCreate, Op.clientSetup, Op.onConnectAck 0,
          Op.onDisconnect 1, Op.disconnectOp] = true ∧
      Pub.mk .statusOffline true ∉
        (run Session.start
          [Op.clientCreate, Op.clientSetup, Op.onConnectAck 0,
            Op.onDisconnect 1, Op.disconnectOp]).2 := by
  decide

/-- C9 amended: `disconnect()` performs the final retained offline status
publish iff the client is initialized and the session is connected at the
moment of the call; and an execution during which the session is never
connected performs no retained offline publish at all. -/
theorem disconnect_offline_iff_connected :
    (∀ s : Session,
        Pub.mk .statusOffline true ∈ (step s Op.disconnectOp).2 ↔
          s.clientInit = true ∧ s.isConnected = true) ∧
      ∀ ops : List Op, everConnected Session.start ops = false →
        Pub.mk .statusOffline true ∉ (run Session.start ops).2 := by
  constructor
  · intro s
    by_cases hc : s.clientInit = true ∧ s.isConnected = true
    · simp [step, hc.1, hc.2]
    · have : ¬(s.clientInit ∧ s.isConnected) := by
        simpa using hc
      simp only [step, if_neg this]
      simp [hc]
  · intro ops hever
    exact no_offline_pub_of_never_connected Session.start ops rfl hever

theorem disconnect_offline_iff_connected_witness :
    Pub.mk .statusOffline true ∈ (step (Session.mk true true true) Op.disconnectOp).2 ∧
      Pub.mk .statusOffline true ∉ (run Session.start [Op.clientCreate]).2 :=
  ⟨(disconnect_offline_iff_connected.1 (Session.mk true true true)).mpr ⟨rfl, rfl⟩,
    disconnect_offline_iff_connected.2 [Op.clientCreate] (by decide)⟩

/-- C2 counterexample: with a 30-second interval and a session open for 95
seconds, the heartbeat worker does not publish 3 times at 30, 60, 90: it
publishes first and sleeps afterwards, so the first publish is at time 0. -/
theorem heartbeat_three_publishes_counterexample :
    heartbeatTimes 30 95 10 0 ≠ [30, 60, 90] ∧
      (heartbeatTimes 30 95 10 0).length ≠ 3 := by
  decide

/-- C2 amended: with `heartbeatIntervalSeconds = 30` and a session connected
from time 0 for 95 seconds, the heartbeat worker performs exactly 4 publishes,
at times 0, 30, 60 and 90 (the worker publishes immediately when started,
then every 30 seconds). -/
theorem heartbeat_four_publishes :
    heartbeatTimes 30 95 10 0 = [0, 30, 60, 90] ∧
      (heartbeatTimes 30 95 10 0).length = 4 := by
  decide

/-! ### GPIO controller lemmas -/

theorem set_led_routesConfig (g : GpioState) (rid : String) (v : Bool) :
    ((set_led g rid v).2).routesConfig = g.routesConfig := by
  unfold set_led; split <;> rfl

theorem set_led_lastButtonPress (g : GpioState) (rid : String) (v : Bool) :
    ((set_led g rid v).2).lastButtonPress = g.lastButtonPress := by
  unfold set_led; split <;> rfl

theorem set_led_not_mem (g : GpioState) (rid : String) (v : Bool)
    (h : dictMem g.routesConfig rid = false) : set_led g rid v = (false, g) := by
  simp [set_led, h]

theorem get_set_led_self (g : GpioState) (rid : String) (v : Bool)
    (h : dictMem g.routesConfig rid = true) :
    get_led_state (set_led g rid v).2 rid = v := by
  simp [set_led, h, get_led_state, dictGet_dictSet_self]

theorem blinkLoop_routesConfig (rid : String) (d i : ℚ) (fuel : ℕ) (t : ℚ)
    (g : GpioState) : (blinkLoop rid d i fuel t g).routesConfig = g.routesConfig := by
  induction fuel generalizing t g with
  | zero => rfl
  | succ n ih =>
    unfold blinkLoop
    split
    · rw [ih, set_led_routesConfig, set_led_routesConfig]
    · rfl

theorem blinkLoop_not_mem (rid : String) (d i : ℚ) (fuel : ℕ) (t : ℚ)
    (g : GpioState) (h : dictMem g.routesConfig rid = false) :
    blinkLoop rid d i fuel t g = g := by
  induction fuel generalizing t with
  | zero => rfl
  | succ n ih =>
    unfold blinkLoop
    split
    · have h1 : (set_led g rid true).2 = g := by rw [set_led_not_mem g rid true h]
      have h2 : (set_led g rid false).2 = g := by rw [set_led_not_mem g rid false h]
      rw [h1, h2, ih]
    · rfl

theorem dictMem_map_const (l : List (String × α)) (c : β) (k : String) :
    dictMem (l.map fun p => (p.1, c)) k = dictMem l k := by
  induction l with
  | nil => rfl
  | cons p ps ih =>
    by_cases h : p.1 == k
    · simp [dictMem, List.find?, h]
    · simp only [dictMem, List.map, List.find?, h]
      simpa [dictMem] using ih

theorem ledWf_gpioSetup (routes : List (String × RouteCfg)) :
    LedWf (gpioSetup routes) := by
  intro k hk
  simp only [gpioSetup] at hk ⊢
  rwa [dictMem_map_const] at hk

theorem ledWf_set_led (g : GpioState) (rid : String) (v : Bool)
    (h : LedWf g) : LedWf (set_led g rid v).2 := by
  intro k hk
  rw [set_led_routesConfig]
  by_cases hm : dictMem g.routesConfig rid
  · simp only [set_led, hm, if_pos] at hk
    rw [dictMem_dictSet] at hk
    rcases Bool.or_eq_true_iff.mp hk with heq | hmem
    · have : rid = k := by simpa using heq
      rwa [← this]
    · exact h k hmem
  · rw [set_led_not_mem g rid v (by simpa using hm)] at hk
    exact h k hk

theorem ledWf_button_callback (W : ℚ) (g : GpioState) (rid : String) (now : ℚ)
    (h : LedWf g) : LedWf (button_callback W g rid now).2.1 := by
  unfold button_callback
  split
  · exact h
  · have h2 : LedWf { g with
        lastButtonPress := dictSet g.lastButtonPress rid now,
        buttonStates := dictSet g.buttonStates rid true } := h
    cases hf : ({ g with
        lastButtonPress := dictSet g.lastButtonPress rid now,
        buttonStates := dictSet g.buttonStates rid true } :
          GpioState).routesConfig.find? (fun p => p.1 == rid) with
    | none => simpa [hf] using h2
    | some p =>
      simp only [hf]
      exact ledWf_set_led _ rid true h2

theorem ledWf_on_led_control (g : GpioState) (rid : String)
    (status : Option String) (dur intv : Option ℚ) (h : LedWf g) :
    LedWf (on_led_control g rid status dur intv).1 := by
  unfold on_led_control
  dsimp only
  split_ifs <;>
    first
      | exact ledWf_set_led g rid true h
      | exact ledWf_set_led g rid false h
      | exact h

theorem ledWf_blinkLoop (rid : String) (d i : ℚ) (fuel : ℕ) (t : ℚ)
    (g : GpioState) (h : LedWf g) : LedWf (blinkLoop rid d i fuel t g) := by
  induction fuel generalizing t g with
  | zero => exact h
  | succ n ih =>
    unfold blinkLoop
    split
    · exact ih _ _ (ledWf_set_led _ rid false (ledWf_set_led g rid true h))
    · exact h

theorem ledWf_blink_led (g : GpioState) (rid : String) (d i : ℚ) (fuel : ℕ)
    (h : LedWf g) : LedWf (blink_led g rid d i fuel) :=
  ledWf_set_led _ rid _ (ledWf_blinkLoop rid d i fuel 0 g h)

/-! ### Vehicle blink lemmas -/

theorem busBlinkLoop_from_off (color : String) (d i : ℚ) (fuel : ℕ) (t : ℚ) :
    busBlinkLoop color d i fuel t ⟨false, false⟩ = ⟨false, false⟩ := by
  induction fuel generalizing t with
  | zero => rfl
  | succ n ih =>
    unfold busBlinkLoop
    split
    · exact ih _
    · rfl

theorem busBlinkLed_ends_off (g : BusGpio) (color : String) (d i : ℚ)
    (fuel : ℕ) (h0 : 0 < d) :
    busBlinkLed g d i color (fuel + 1) = ⟨false, false⟩ := by
  unfold busBlinkLed busBlinkLoop
  rw [if_pos h0]
  exact busBlinkLoop_from_off color d i fuel _

/-! ### Claim theorems on the GPIO controllers -/

/-- C3 counterexample: the vehicle variant's `blink_led` does not restore
the channel's prior output state: blinking red for 2 seconds at interval
1/2 from the prior state (red on, green off) ends with both LEDs off, not
with the prior state. -/
theorem bus_blink_restore_counterexample :
    busBlinkLed ⟨true, false⟩ 2 (1 / 2) "red" 10 = ⟨false, false⟩ ∧
      busBlinkLed ⟨true, false⟩ 2 (1 / 2) "red" 10 ≠ ⟨true, false⟩ := by
  have h : busBlinkLed ⟨true, false⟩ 2 (1 / 2) "red" (9 + 1) = ⟨false, false⟩ :=
    busBlinkLed_ends_off ⟨true, false⟩ "red" 2 (1 / 2) 9 (by norm_num)
  exact ⟨h, by rw [h]; decide⟩

/-- C3 amended: the bus-stop variant's `blink_led` restores the channel's
prior output state after an uncancelled run (the worker re-reads and
rewrites the channel's saved state; for an unconfigured channel every write
is a no-op, so the state is likewise unchanged).  The vehicle variant's
`blink_led` does not restore: provided the loop body runs (positive
duration, enough fuel for at least one iteration), it leaves both LEDs
off whatever the prior state was. -/
theorem blink_restores_prior_state_amended :
    (∀ (g : GpioState) (rid : String) (d i : ℚ) (fuel : ℕ),
        get_led_state (blink_led g rid d i fuel) rid = get_led_state g rid) ∧
      ∀ (g : BusGpio) (color : String) (d i : ℚ) (fuel : ℕ),
        0 < d → 0 < fuel → busBlinkLed g d i color fuel = ⟨false, false⟩ := by
  constructor
  · intro g rid d i fuel
    unfold blink_led
    dsimp only
    by_cases hm : dictMem g.routesConfig rid
    · have hr : (blinkLoop rid d i fuel 0 g).routesConfig = g.routesConfig :=
        blinkLoop_routesConfig rid d i fuel 0 g
      rw [get_set_led_self (blinkLoop rid d i fuel 0 g) rid
        (dictGet g.ledStates rid false) (by rw [hr]; exact hm)]
      rfl
    · have hm' : dictMem g.routesConfig rid = false := by simpa using hm
      rw [blinkLoop_not_mem rid d i fuel 0 g hm',
        set_led_not_mem g rid (dictGet g.ledStates rid false) hm']
  · intro g color d i fuel h0 hfuel
    obtain ⟨n, rfl⟩ : ∃ n, fuel = n + 1 :=
      ⟨fuel - 1, (Nat.succ_pred_eq_of_pos hfuel).symm⟩
    exact busBlinkLed_ends_off g color d i n h0

theorem blink_restores_prior_state_amended_witness :
    get_led_state
        (blink_led (gpioSetup defaultRoutesConfig) "1" 2 (1 / 2) 10) "1" =
      get_led_state (gpioSetup defaultRoutesConfig) "1" ∧
      busBlinkLed ⟨false, true⟩ 2 (1 / 2) "green" 10 = ⟨false, false⟩ :=
  ⟨blink_restores_prior_state_amended.1 (gpioSetup defaultRoutesConfig) "1" 2 (1 / 2) 10,
    blink_restores_prior_state_amended.2 ⟨false, true⟩ "green" 2 (1 / 2) 10
      (by norm_num) (by norm_num)⟩

/-- C5: the debouncer accepts an edge at time `now` iff
`now - lastEdgeTimestamp >= debounceWindow`; on rejection the whole
controller state is unchanged and no callback is spawned; on acceptance the
channel's timestamp becomes `now`. -/
theorem debounce_accept_iff (W : ℚ) (g : GpioState) (rid : String) (now : ℚ) :
    ((button_callback W g rid now).1 = true ↔
        W ≤ now - dictGet g.lastButtonPress rid 0) ∧
      ((button_callback W g rid now).1 = false →
        (button_callback W g rid now).2.1 = g ∧
          (button_callback W g rid now).2.2 = none) ∧
      ((button_callback W g rid now).1 = true →
        dictGet ((button_callback W g rid now).2.1).lastButtonPress rid 0 = now) := by
  by_cases h : now - dictGet g.lastButtonPress rid 0 < W
  · have hr : button_callback W g rid now = (false, g, none) := by
      unfold button_callback
      rw [if_pos h]
    rw [hr]
    refine ⟨by simpa using h, fun _ => ⟨rfl, rfl⟩, by simp⟩
  · have hle : W ≤ now - dictGet g.lastButtonPress rid 0 := le_of_not_lt h
    have hlast : ((button_callback W g rid now).2.1).lastButtonPress =
        dictSet g.lastButtonPress rid now := by
      unfold button_callback
      rw [if_neg h]
      dsimp only
      cases hf : List.find? (fun p => p.1 == rid) g.routesConfig with
      | none => rfl
      | some p =>
        dsimp only
        rw [set_led_lastButtonPress]
    have hacc : (button_callback W g rid now).1 = true := by
      unfold button_callback
      rw [if_neg h]
      dsimp only
      cases hf : List.find? (fun p => p.1 == rid) g.routesConfig with
      | none => rfl
      | some p => rfl
    refine ⟨⟨fun _ => hle, fun _ => hacc⟩, fun hc => absurd hacc (by simp [hc]), ?_⟩
    intro _
    rw [hlast, dictGet_dictSet_self]

theorem debounce_accept_iff_witness :
    (button_callback 1 (gpioSetup []) "1" 5).1 = true ∧
      dictGet ((button_callback 1 (gpioSetup []) "1" 5).2.1).lastButtonPress "1" 0 = 5 := by
  have h := debounce_accept_iff 1 (gpioSetup []) "1" 5
  have hcond : (1 : ℚ) ≤ 5 - dictGet (gpioSetup []).lastButtonPress "1" 0 := by
    norm_num [gpioSetup, dictGet]
  exact ⟨h.1.mpr hcond, h.2.2 (h.1.mpr hcond)⟩

/-- C8: for a configured route, a `ControlCommand` with `status:"ON"`
followed by a read of that channel's output state yields `true`, and
`status:"OFF"` yields `false`. -/
theorem led_control_on_off_roundtrip (g : GpioState) (rid : String)
    (dur intv : Option ℚ) (h : dictMem g.routesConfig rid = true) :
    get_led_state (on_led_control g rid (some "ON") dur intv).1 rid = true ∧
      get_led_state (on_led_control g rid (some "OFF") dur intv).1 rid = false := by
  have hOn : (on_led_control g rid (some "ON") dur intv).1 = (set_led g rid true).2 := rfl
  have hOff : (on_led_control g rid (some "OFF") dur intv).1 = (set_led g rid false).2 := rfl
  rw [hOn, hOff, get_set_led_self g rid true h, get_set_led_self g rid false h]
  exact ⟨rfl, rfl⟩

theorem led_control_on_off_roundtrip_witness :
    dictMem (gpioSetup defaultRoutesConfig).routesConfig "1" = true ∧
      get_led_state
          (on_led_control (gpioSetup defaultRoutesConfig) "1" (some "ON") none none).1 "1" = true ∧
        get_led_state
          (on_led_control (gpioSetup defaultRoutesConfig) "1" (some "OFF") none none).1 "1" = false :=
  ⟨by decide,
    led_control_on_off_roundtrip (gpioSetup defaultRoutesConfig) "1" none none (by decide)⟩

/-- C10: for a route id not in `routes_config`, `set_led` returns `false`
and leaves the whole controller state (in particular the LED state map)
unchanged, and a subsequent `get_led_state` on that route id returns
`false` (in any well-formed state, `led_states` has no entry for an
unconfigured route). -/
theorem set_led_unknown_route (g : GpioState) (rid : String) (st : Bool)
    (hwf : LedWf g) (h : dictMem g.routesConfig rid = false) :
    (set_led g rid st).1 = false ∧ (set_led g rid st).2 = g ∧
      get_led_state (set_led g rid st).2 rid = false := by
  have h2 : set_led g rid st = (false, g) := set_led_not_mem g rid st h
  have hmem : dictMem g.ledStates rid = false := by
    by_contra hc
    have : dictMem g.ledStates rid = true := by
      simpa using hc
    rw [hwf rid this] at h
    exact Bool.noConfusion h
  refine ⟨by rw [h2], by rw [h2], ?_⟩
  rw [h2]
  exact dictGet_of_not_mem g.ledStates rid false hmem

theorem set_led_unknown_route_witness :
    dictMem (gpioSetup defaultRoutesConfig).routesConfig "999" = false ∧
      (set_led (gpioSetup defaultRoutesConfig) "999" true).1 = false ∧
        (set_led (gpioSetup defaultRoutesConfig) "999" true).2 = gpioSetup defaultRoutesConfig ∧
          get_led_state (set_led (gpioSetup defaultRoutesConfig) "999" true).2 "999" = false :=
  ⟨by decide,
    set_led_unknown_route (gpioSetup defaultRoutesConfig) "999" true
      (ledWf_gpioSetup defaultRoutesConfig) (by decide)⟩

/-! ### Routing, message handling and the button-press bridge -/

/-- C6: topic routing is a pure function of the topic and the configured
route id: `device/button/STOP1/100` routes to a button press with stop id
`STOP1` and route id `100` when the configured route id is `100`, and to
`Unrecognized` under any other configured route id. -/
theorem route_button_topic_matching (rid : String) (h : rid ≠ "100") :
    route "100" "device/button/STOP1/100" = RoutedEvent.buttonPress "STOP1" "100" ∧
      route rid "device/button/STOP1/100" = RoutedEvent.unrecognized := by
  refine ⟨rfl, ?_⟩
  have e : route rid "device/button/STOP1/100" =
      if ("100" == rid) = true then RoutedEvent.buttonPress "STOP1" "100"
      else RoutedEvent.unrecognized := rfl
  rw [e, if_neg]
  simp only [beq_iff_eq]
  exact fun hh => h hh.symm

theorem route_button_topic_matching_witness :
    route "100" "device/button/STOP1/100" = RoutedEvent.buttonPress "STOP1" "100" ∧
      route "999" "device/button/STOP1/100" = RoutedEvent.unrecognized :=
  route_button_topic_matching "999" (by decide)

/-- C4 counterexample: in the bus-stop variant, a message whose payload
fails to parse invokes no callback at all (the catch-all handler logs and
drops it), even though the same message with a parseable payload reaches
the registered `led_control` callback. -/
theorem stop_malformed_payload_counterexample :
    stopOnMessage "STOP001" true true "device/led/STOP001/1" "not json"
        (none : Option Unit) = none ∧
      stopOnMessage "STOP001" true true "device/led/STOP001/1" "{}"
        (some ()) = some (StopDispatch.ledControl "1" ()) :=
  ⟨rfl, rfl⟩

/-- C4 amended: the vehicle variant handles a parse failure by falling back
to the raw string — any callback it invokes on such a message receives the
raw-string payload, and a button topic that routes with a registered
callback does invoke it; the bus-stop variant instead drops a message whose
payload fails to parse, invoking no callback.  Neither raises. -/
theorem malformed_payload_amended :
    (∀ (α : Type) (cfg : String) (rc hc : Bool) (topic raw : String)
        (inv : BusDispatch α),
        busOnMessage cfg rc hc topic raw none = some inv →
          inv.payload = Payload.raw raw) ∧
      (∀ (α : Type) (cfg : String) (hc : Bool) (topic raw stopId routeId : String),
        route cfg topic = RoutedEvent.buttonPress stopId routeId →
          busOnMessage cfg true hc topic raw (none : Option α) =
            some (BusDispatch.routeCall stopId (Payload.raw raw))) ∧
      ∀ (α : Type) (stopId : String) (lc hc : Bool) (topic raw : String),
        stopOnMessage (α := α) stopId lc hc topic raw none = none := by
  refine ⟨?_, ?_, ?_⟩
  · intro α cfg rc hc topic raw inv hinv
    unfold busOnMessage at hinv
    cases hroute : route cfg topic <;>
      simp only [hroute] at hinv
    case buttonPress s r =>
      split at hinv
      · cases Option.some.inj hinv
        rfl
      · exact Option.noConfusion hinv
    case healthCheck =>
      split at hinv
      · cases Option.some.inj hinv
        rfl
      · exact Option.noConfusion hinv
    case unrecognized => exact Option.noConfusion hinv
  · intro α cfg hc topic raw s r hroute
    unfold busOnMessage
    rw [hroute]
    rfl
  · intro α stopId lc hc topic raw
    rfl

theorem malformed_payload_amended_witness :
    busOnMessage "100" true true "device/button/STOP1/100" "oops"
        (none : Option Unit) =
      some (BusDispatch.routeCall "STOP1" (Payload.raw "oops")) ∧
      stopOnMessage "STOP001" true true "device/button/STOP1/100" "oops"
        (none : Option Unit) = none :=
  ⟨malformed_payload_amended.2.1 Unit "100" true "device/button/STOP1/100"
      "oops" "STOP1" "100" rfl,
    malformed_payload_amended.2.2 Unit "STOP001" true true
      "device/button/STOP1/100" "oops"⟩

/-- C7: for every accepted button edge, the bridge handler makes exactly
one publish attempt, and the feedback blink is a deterministic function of
the publish call's boolean result: `true` selects the confirmation pattern
(duration 1.0s, interval 0.2s), `false` the error pattern (duration 2.0s,
interval 0.1s). -/
theorem button_press_single_publish_feedback (connected rcOk : Bool) :
    (onButtonPressed connected rcOk).count BridgeAction.publishAttempt = 1 ∧
      (publishButtonPressResult connected rcOk = true →
        onButtonPressed connected rcOk =
          [BridgeAction.publishAttempt, confirmFeedback]) ∧
      (publishButtonPressResult connected rcOk = false →
        onButtonPressed connected rcOk =
          [BridgeAction.publishAttempt, errorFeedback]) := by
  cases connected <;> cases rcOk <;>
    refine ⟨rfl, ?_, ?_⟩ <;>
      first
        | (intro hx; exact Bool.noConfusion hx)
        | (intro _; rfl)

theorem button_press_single_publish_feedback_witness :
    (onButtonPressed true true).count BridgeAction.publishAttempt = 1 ∧
      onButtonPressed true true = [BridgeAction.publishAttempt, confirmFeedback] ∧
        onButtonPressed true false = [BridgeAction.publishAttempt, errorFeedback] :=
  ⟨(button_press_single_publish_feedback true true).1,
    (button_press_single_publish_feedback true true).2.1 rfl,
    (button_press_single_publish_feedback true false).2.2 rfl⟩

end MqttBus
